import Mathlib

/-!
Verification development for the Project Session Registry & Process
Orchestration subsystem of the `vscode-react-native` extension
(`src/src/extension/rn-extension.ts` plus its `commandExecutor` test suite).

Shallow embedding conventions:
* pure TypeScript functions become Lean functions;
* a thrown JavaScript exception becomes `Except.error`;
* the pieces of the repository that are only referenced from
  `rn-extension.ts` but whose sources are absent (ProjectsStorage,
  AppLauncher, CommandExecutor, ProjectVersionHelper, the `semver`
  library) are modelled from the specification; each such definition has
  a doc comment starting with `Modelled from the spec:`.
-/

/- ## Character / list helpers used by the semver model -/

/-- Splits a character list at every occurrence of `c`; accumulator-based
worker for `splitOnChar`. -/
def splitOnCharGo (c : Char) : List Char → List Char → List (List Char)
  | [], acc => [acc.reverse]
  | x :: xs, acc =>
    if x == c then acc.reverse :: splitOnCharGo c xs []
    else splitOnCharGo c xs (x :: acc)

/-- Splits a character list at every occurrence of `c` (the separators are
dropped, empty components are kept). -/
def splitOnChar (c : Char) (l : List Char) : List (List Char) :=
  splitOnCharGo c l []

/-- Returns the part of the list before the first occurrence of `c` and,
when `c` occurs, the part after it. -/
def splitAtFirst (c : Char) : List Char → List Char × Option (List Char)
  | [] => ([], none)
  | x :: xs =>
    if x == c then ([], some xs)
    else
      let r := splitAtFirst c xs
      (x :: r.fst, r.snd)

/-- Decimal value of a digit string (callers guarantee all characters are
digits). -/
def digitsToNat (l : List Char) : Nat :=
  l.foldl (fun acc c => acc * 10 + (c.toNat - 48)) 0

/- ## Model of the `semver` npm library (external collaborator)

`rn-extension.ts` uses `semver.valid` and `semver.gte`.  The library is an
external dependency; the model below follows the published Semantic
Versioning 2.0.0 grammar used by that library: a version is
`[v]MAJOR.MINOR.PATCH[-PRERELEASE][+BUILD]`, the three numeric fields carry
no leading zeros, prerelease identifiers are dot-separated and are either
numeric (no leading zeros) or alphanumeric-with-hyphens, and comparison
orders the numeric core lexicographically, with a prerelease version
ordered below the corresponding release. -/

/-- A prerelease identifier: numeric or alphanumeric. -/
inductive PreId where
  | num (n : Nat)
  | str (s : List Char)
deriving DecidableEq

/-- A parsed semantic version (build metadata is validated but dropped, as
it never participates in comparisons). -/
structure Semver where
  major : Nat
  minor : Nat
  patch : Nat
  pre : List PreId
deriving DecidableEq

/-- A numeric identifier: nonempty digit string without leading zeros. -/
def parseNumericId (l : List Char) : Option Nat :=
  if l.isEmpty then none
  else if !(l.all Char.isDigit) then none
  else if 1 < l.length ∧ l.head? = some '0' then none
  else some (digitsToNat l)

/-- Characters allowed in prerelease / build identifiers. -/
def isIdentChar (c : Char) : Bool :=
  c.isAlpha || c.isDigit || c == '-'

/-- A single prerelease identifier. -/
def parsePreId (l : List Char) : Option PreId :=
  if l.isEmpty then none
  else if l.all Char.isDigit then
    match parseNumericId l with
    | some n => some (PreId.num n)
    | none => none
  else if l.all isIdentChar then some (PreId.str l)
  else none

/-- All prerelease identifiers, failing if any single one is malformed. -/
def parsePreIds : List (List Char) → Option (List PreId)
  | [] => some []
  | x :: xs =>
    match parsePreId x, parsePreIds xs with
    | some i, some rest => some (i :: rest)
    | _, _ => none

/-- Build metadata: dot-separated nonempty alphanumeric identifiers. -/
def validBuildIds (l : List Char) : Bool :=
  (splitOnChar '.' l).all (fun part => !part.isEmpty && part.all isIdentChar)

/-- The `MAJOR.MINOR.PATCH` numeric core. -/
def parseCore (l : List Char) : Option (Nat × Nat × Nat) :=
  match splitOnChar '.' l with
  | [a, b, c] =>
    match parseNumericId a, parseNumericId b, parseNumericId c with
    | some x, some y, some z => some (x, y, z)
    | _, _, _ => none
  | _ => none

/-- The grammar admits one optional leading `v`. -/
def stripLeadingV : List Char → List Char
  | 'v' :: rest => rest
  | l => l

/-- Parses a full semantic version string (as a character list). -/
def semverParseChars (input : List Char) : Option Semver :=
  let l := stripLeadingV input
  let mainAndBuild := splitAtFirst '+' l
  let buildOk :=
    match mainAndBuild.snd with
    | some b => validBuildIds b
    | none => true
  if buildOk then
    let coreAndPre := splitAtFirst '-' mainAndBuild.fst
    match parseCore coreAndPre.fst with
    | none => none
    | some (x, y, z) =>
      match coreAndPre.snd with
      | none => some { major := x, minor := y, patch := z, pre := [] }
      | some p =>
        match parsePreIds (splitOnChar '.' p) with
        | some ids => some { major := x, minor := y, patch := z, pre := ids }
        | none => none
  else none

/-- Model of `semver.valid`: `some` exactly on valid semantic versions
(`semver.valid` returns the parsed version string, here the parsed value). -/
def semverParse (s : String) : Option Semver :=
  semverParseChars s.toList

/-- ASCII-lexicographic comparison of alphanumeric identifiers. -/
def compareCharList : List Char → List Char → Ordering
  | [], [] => Ordering.eq
  | [], _ :: _ => Ordering.lt
  | _ :: _, [] => Ordering.gt
  | a :: as, b :: bs =>
    match compare a b with
    | Ordering.eq => compareCharList as bs
    | o => o

/-- Semver precedence of prerelease identifiers: numeric identifiers
compare numerically and are lower than alphanumeric ones. -/
def comparePreId : PreId → PreId → Ordering
  | PreId.num a, PreId.num b => compare a b
  | PreId.num _, PreId.str _ => Ordering.lt
  | PreId.str _, PreId.num _ => Ordering.gt
  | PreId.str a, PreId.str b => compareCharList a b

/-- Identifier-list precedence: a shorter list that is a prefix of a longer
one has lower precedence. -/
def comparePreLists : List PreId → List PreId → Ordering
  | [], [] => Ordering.eq
  | [], _ :: _ => Ordering.lt
  | _ :: _, [] => Ordering.gt
  | a :: as, b :: bs =>
    match comparePreId a b with
    | Ordering.eq => comparePreLists as bs
    | o => o

/-- Semver precedence: numeric core first; at an equal core a prerelease
version precedes the plain release. -/
def semverCompare (a b : Semver) : Ordering :=
  match compare a.major b.major with
  | Ordering.eq =>
    match compare a.minor b.minor with
    | Ordering.eq =>
      match compare a.patch b.patch with
      | Ordering.eq =>
        match a.pre, b.pre with
        | [], [] => Ordering.eq
        | [], _ :: _ => Ordering.gt
        | _ :: _, [] => Ordering.lt
        | x :: xs, y :: ys => comparePreLists (x :: xs) (y :: ys)
      | o => o
    | o => o
  | o => o

/-- Model of `semver.gte` (only ever invoked on versions already known to
be valid in the embedded code path). -/
def semverGte (v w : String) : Bool :=
  match semverParse v, semverParse w with
  | some a, some b =>
    match semverCompare a b with
    | Ordering.lt => false
    | _ => true
  | _, _ => false

/- ## Error taxonomy (Modelled from the spec, §3 and §7) -/

/-- Severity levels of an `ErrorRecord` (spec §3: enum Info/Warning/Error). -/
inductive ErrorLevel where
  | Info
  | Warning
  | Error
deriving DecidableEq

/-- Modelled from the spec: an `ErrorRecord` is `{errorCode, errorLevel,
message}`, immutable once constructed. -/
structure ErrorRecord where
  errorCode : Nat
  errorLevel : ErrorLevel
  message : String
deriving DecidableEq

/-- The fixed "command failed" code; its value 101 is attested by the
`commandExecutor` test suite (`assert.strictEqual(reason.errorCode, 101)`). -/
def commandFailedCode : Nat := 101

/-- Modelled from the spec: the "project not found" registry error kind
maps to a stable integer code (value unspecified by the spec). -/
def projectNotFoundCode : Nat := 201

/-- Modelled from the spec: the "duplicate project" registry error kind. -/
def duplicateProjectCode : Nat := 202

/-- Modelled from the spec: the "resource teardown failure" error kind. -/
def resourceTeardownCode : Nat := 203

/- ## Workspace folders, launchers and the Session Registry -/

/-- Model of a `vscode.WorkspaceFolder`: `{uri.fsPath, name, index}`. -/
structure WorkspaceFolder where
  fsPath : String
  name : String
  index : Nat
deriving DecidableEq

/-- Modelled from the spec: one owned sub-resource of an `AppLauncher`
(packager handle, watcher, ...).  `onFolderRemoved` iterates the launcher's
properties, calling `dispose` on every property that exposes one; a
disposal may itself throw. -/
structure OwnedResource where
  hasDispose : Bool
  disposeThrows : Bool
deriving DecidableEq

/-- Modelled from the spec: the per-project `AppLauncher` holds its owned
resources and a reference to its `WorkspaceFolder`. -/
structure AppLauncher where
  resources : List OwnedResource
  folder : WorkspaceFolder
deriving DecidableEq

/-- Modelled from the spec: the Session Registry (`ProjectsStorage`) maps a
project root path to its `AppLauncher`. -/
abbrev Registry := List (String × AppLauncher)

/-- Whether a project root is already present in the registry. -/
def hasRoot (reg : Registry) (root : String) : Bool :=
  reg.any (fun entry => decide (entry.fst = root))

/-- Modelled from the spec: the "duplicate project" condition raised by
`addProject` when the root is already present. -/
def duplicateProjectError : ErrorRecord :=
  { errorCode := duplicateProjectCode, errorLevel := ErrorLevel.Error,
    message := "Project is already present in the registry" }

/-- Modelled from the spec: `ProjectsStorage.addFolder` — fails with the
duplicate-project condition if the root is already present, otherwise
stores the launcher under the root. -/
def addFolder (reg : Registry) (projectRootPath : String) (appLauncher : AppLauncher) :
    Except ErrorRecord Registry :=
  if hasRoot reg projectRootPath then Except.error duplicateProjectError
  else Except.ok (reg ++ [(projectRootPath, appLauncher)])

/-- Modelled from the spec: the "project not found" condition carries a
rendered map of all registry keys for diagnostics. -/
def projectNotFoundError (reg : Registry) : ErrorRecord :=
  { errorCode := projectNotFoundCode, errorLevel := ErrorLevel.Error,
    message := "Project not found. Known roots: " ++
      String.intercalate ", " (reg.map Prod.fst) }

/-- Modelled from the spec: `ProjectsStorage.getFolder` resolves a
workspace-folder reference through the launchers' stored folder references;
if no launcher matches it fails with the project-not-found condition. -/
def getFolder (reg : Registry) (folder : WorkspaceFolder) : Except ErrorRecord AppLauncher :=
  match reg.find? (fun entry => decide (entry.snd.folder = folder)) with
  | some entry => Except.ok entry.snd
  | none => Except.error (projectNotFoundError reg)

/-- Modelled from the spec: `ProjectsStorage.delFolder` deletes every entry
whose launcher references the given folder (deleting an absent key is a
no-op). -/
def delFolder (reg : Registry) (folder : WorkspaceFolder) : Registry :=
  reg.filter (fun entry => !(decide (entry.snd.folder = folder)))

/- ## Version detection and the supported-version gate -/

/-- Modelled from the spec: the outcome of
`ProjectVersionHelper.tryToGetRNSemverValidVersionsFromProjectPackage` for
the `react-native` dependency — either a version string or a version-error
value. -/
inductive VersionDetection where
  | ok (version : String)
  | err (reason : String)
deriving DecidableEq

/-- Modelled from the spec: `ProjectVersionHelper.isVersionError`
recognises the version-error values produced by detection. -/
def isVersionError : VersionDetection → Bool
  | VersionDetection.ok _ => false
  | VersionDetection.err _ => true

/-- Embedded from `rn-extension.ts` (`isSupportedVersion`): the gate
rejects only strings that parse as valid semver and are below `0.19.0`;
`!!semver.valid(version) === false` deliberately passes, so custom
non-semver versions are treated as supported.  The telemetry event and the
warning dialog emitted on rejection are side effects outside the returned
Boolean and are elided. -/
def isSupportedVersion (version : String) : Bool :=
  if (semverParse version).isSome && !(semverGte version "0.19.0") then false
  else true

/-- Whether a detection outcome both succeeded and passed the
supported-version gate. -/
def detectedSupported : VersionDetection → Bool
  | VersionDetection.ok v => isSupportedVersion v
  | VersionDetection.err _ => false

/- ## onFolderAdded -/

/-- The environment a single `onFolderAdded` call runs in: the detection
outcome for the folder, whether `ReactDirManager.setup` (awaited through
`setupAndDispose`) resolves, and the resources the new launcher will own.
Detection, setup and the launcher internals live outside `src/` and are
modelled from the spec. -/
structure FolderAddEnv where
  detected : VersionDetection
  setupOk : Bool
  launcherResources : List OwnedResource
deriving DecidableEq

/-- Observable outcome of one `onFolderAdded` call: the resulting registry,
the resulting `COUNT_WORKSPACE_FOLDERS` counter, whether
`ProjectsStorage.addFolder` was reached, and whether a failure was reported
to log/telemetry. -/
structure FolderAddOutcome where
  registry : Registry
  counter : Nat
  addFolderReached : Bool
  failureReported : Bool
deriving DecidableEq

/-- Embedded from `rn-extension.ts` (`onFolderAdded`): on a version-error
the failure is sent to telemetry/log and the folder is skipped; on an
unsupported version the folder is skipped with a log message; otherwise the
launcher stub runs inside `entryPointHandler.runFunction` (which catches
and reports a thrown error): `setup` is awaited, then
`ProjectsStorage.addFolder` stores the launcher, then
`COUNT_WORKSPACE_FOLDERS++`.  A setup failure aborts before `addFolder`;
an `addFolder` failure aborts before the counter increment. -/
def onFolderAdded (env : FolderAddEnv) (reg : Registry) (counter : Nat)
    (folder : WorkspaceFolder) (projectRootPath : String) : FolderAddOutcome :=
  match env.detected with
  | VersionDetection.err _ =>
    { registry := reg, counter := counter, addFolderReached := false, failureReported := true }
  | VersionDetection.ok v =>
    if isSupportedVersion v then
      if env.setupOk then
        match addFolder reg projectRootPath
            { resources := env.launcherResources, folder := folder } with
        | Except.ok updated =>
          { registry := updated, counter := counter + 1,
            addFolderReached := true, failureReported := false }
        | Except.error _ =>
          { registry := reg, counter := counter,
            addFolderReached := true, failureReported := true }
      else
        { registry := reg, counter := counter,
          addFolderReached := false, failureReported := true }
    else
      { registry := reg, counter := counter,
        addFolderReached := false, failureReported := true }

/- ## onFolderRemoved -/

/-- Modelled from the spec: the error raised when disposing an owned
resource throws. -/
def teardownFailureError : ErrorRecord :=
  { errorCode := resourceTeardownCode, errorLevel := ErrorLevel.Error,
    message := "Disposing an owned launcher resource threw" }

/-- Embedded from `rn-extension.ts` (`onFolderRemoved` dispose loop):
`Object.keys(appLauncher).forEach` calls `dispose()` on every property that
exposes one; the loop body is not wrapped in try/catch, so the first
throwing disposal propagates and aborts the iteration. -/
def disposeOwned : List OwnedResource → Except ErrorRecord Unit
  | [] => Except.ok ()
  | r :: rest =>
    if r.hasDispose && r.disposeThrows then Except.error teardownFailureError
    else disposeOwned rest

/-- Observable outcome of one `onFolderRemoved` call. -/
structure FolderRemoveOutcome where
  registry : Registry
  delFolderReached : Bool
  raised : Option ErrorRecord
deriving DecidableEq

/-- Embedded from `rn-extension.ts` (`onFolderRemoved`): look the folder up
(`ProjectsStorage.getFolder`), dispose every owned resource exposing a
`dispose`, then delete the registry entry (`ProjectsStorage.delFolder`).
An error from the lookup or from a disposal propagates before `delFolder`
is reached; the only try/catch in the function wraps the later
subscription-pruning step. -/
def onFolderRemoved (reg : Registry) (folder : WorkspaceFolder) : FolderRemoveOutcome :=
  match getFolder reg folder with
  | Except.error e =>
    { registry := reg, delFolderReached := false, raised := some e }
  | Except.ok appLauncher =>
    match disposeOwned appLauncher.resources with
    | Except.error e =>
      { registry := reg, delFolderReached := false, raised := some e }
    | Except.ok _ =>
      { registry := delFolder reg folder, delFolderReached := true, raised := none }

/- ## createAdditionalWorkspaceFolder and the synthetic index counter -/

/-- Model of `path.basename`: the last `/`-separated component. -/
def pathBasename (p : String) : String :=
  match (splitOnChar '/' p.toList).getLast? with
  | some l => String.mk l
  | none => ""

/-- Embedded from `rn-extension.ts` (`createAdditionalWorkspaceFolder`):
when the path exists on disk, builds a synthetic workspace folder whose
index is `++COUNT_WORKSPACE_FOLDERS` (the incremented counter value);
otherwise returns `null` and leaves the counter untouched.  The
`fs.existsSync` probe is an input.  Returns the folder (if any) and the
updated counter. -/
def createAdditionalWorkspaceFolder (count : Nat) (folderPath : String)
    (pathExists : Bool) : Option WorkspaceFolder × Nat :=
  if pathExists then
    (some { fsPath := folderPath, name := pathBasename folderPath, index := count + 1 },
     count + 1)
  else (none, count)

/-- One process-lifetime event touching the registry or the counter. -/
inductive FolderEvent where
  | folderAdded (env : FolderAddEnv) (folder : WorkspaceFolder) (projectRootPath : String)
  | folderRemoved (folder : WorkspaceFolder)
  | createAdditional (folderPath : String) (pathExists : Bool)

/-- Process-wide mutable state: the registry, the
`COUNT_WORKSPACE_FOLDERS` counter, and the synthetic indices issued so far
by `createAdditionalWorkspaceFolder`, in issue order. -/
structure ExtensionState where
  registry : Registry
  counter : Nat
  issued : List Nat

/-- Embedded from `rn-extension.ts`: `COUNT_WORKSPACE_FOLDERS` is seeded
with 9000 "in order to not overlap indices of the workspace folders
originally generated by VS Code". -/
def initialState : ExtensionState :=
  { registry := [], counter := 9000, issued := [] }

/-- One event step over the process-wide state. -/
def stepEvent (s : ExtensionState) : FolderEvent → ExtensionState
  | FolderEvent.folderAdded env folder root =>
    let o := onFolderAdded env s.registry s.counter folder root
    { registry := o.registry, counter := o.counter, issued := s.issued }
  | FolderEvent.folderRemoved folder =>
    { s with registry := (onFolderRemoved s.registry folder).registry }
  | FolderEvent.createAdditional folderPath pathExists =>
    match createAdditionalWorkspaceFolder s.counter folderPath pathExists with
    | (some f, c) => { s with counter := c, issued := s.issued ++ [f.index] }
    | (none, c) => { s with counter := c }

/-- The state after a sequence of events in one process lifetime. -/
def runEvents (evs : List FolderEvent) : ExtensionState :=
  evs.foldl stepEvent initialState

/-- Invariant tying the issued synthetic indices to the counter. -/
def CounterInv (s : ExtensionState) : Prop :=
  9000 ≤ s.counter ∧ s.issued.Pairwise (· < ·) ∧
    ∀ i ∈ s.issued, 9000 < i ∧ i ≤ s.counter

/- ## Process Executor models (CommandExecutor lives outside src/) -/

/-- How an attempted external process run ends: the spawn itself fails
(binary not found), or the process starts and exits with a code. -/
inductive ProcessOutcome where
  | spawnError (reason : String)
  | exited (code : Int) (stdout : String) (stderr : String)
deriving DecidableEq

/-- Modelled from the spec: `CommandExecutor.execute` runs a command line
to completion and resolves with the captured text; a spawn failure and a
non-zero exit both reject with the fixed "command failed" code at level
Error, the latter with the captured output attached to the message. -/
def execute (commandLine : String) (outcome : ProcessOutcome) :
    Except ErrorRecord String :=
  match outcome with
  | ProcessOutcome.spawnError reason =>
    Except.error
      { errorCode := commandFailedCode, errorLevel := ErrorLevel.Error,
        message := "Error while executing: " ++ commandLine ++ ". " ++ reason }
  | ProcessOutcome.exited code stdout stderr =>
    if code = 0 then Except.ok stdout
    else
      Except.error
        { errorCode := commandFailedCode, errorLevel := ErrorLevel.Error,
          message := "Error while executing: " ++ commandLine ++ ". " ++
            stdout ++ stderr }

/-- The configuration + filesystem facts CLI resolution depends on:
whether the project-local installed binary exists (and its path), and the
configured global command name (empty string when unset). -/
structure CLIResolutionEnv where
  localCLIExists : Bool
  localCLIPath : String
  globalCommandName : String
deriving DecidableEq

/-- The hardcoded default CLI command name, the last resolution tier. -/
def reactNativeDefaultCommand : String := "react-native"

/-- Modelled from the spec: `CommandExecutor.selectReactNativeCLI` — a
deterministic three-tier choice: project-local installed binary first, then
the configured global command name, then the hardcoded default. -/
def selectReactNativeCLI (env : CLIResolutionEnv) : String :=
  if env.localCLIExists then env.localCLIPath
  else if env.globalCommandName = "" then reactNativeDefaultCommand
  else env.globalCommandName

/-- Strips the range sigils (`^`, `~`, `v`, `=`) a declared dependency
range may carry in front of the semantic-version core. -/
def stripRangeSigils : List Char → List Char
  | [] => []
  | c :: rest =>
    if c == '^' || c == '~' || c == 'v' || c == '=' then stripRangeSigils rest
    else c :: rest

/-- Best-effort cleanup of a declared version to a plain semver string. -/
def processVersion (s : String) : String :=
  String.mk (stripRangeSigils s.toList)

/-- The two manifest shapes the version probe can see: the installed
package manifest's optional `version` field, and the project's declared
dependency version used as the fallback source. -/
structure VersionProbeEnv where
  manifestVersion : Option String
  declaredVersion : String
deriving DecidableEq

/-- Modelled from the spec: `CommandExecutor.getReactNativeVersion` reads
the installed package manifest's declared version; if the manifest lacks a
`version` field it falls back to the project's declared range, returning a
best-effort semantic version string rather than failing. -/
def getReactNativeVersion (env : VersionProbeEnv) : String :=
  match env.manifestVersion with
  | some v => processVersion v
  | none => processVersion env.declaredVersion

/-- A live spawn handle: the resolved command, its argument vector, and the
completion signal that may later fail. -/
structure SpawnHandle where
  command : String
  args : List String
  outcome : Except ErrorRecord Unit

/-- Modelled from the spec: `CommandExecutor.spawnReactCommand` builds the
argument vector (`[command]`, extended with the optional extra arguments)
and returns the spawn handle; construction itself never throws — only the
handle's completion signal may later fail.  The result type is `Except` so
that a synchronous throw would be expressible as `Except.error`. -/
def spawnReactCommand (env : CLIResolutionEnv) (command : String)
    (args : Option (List String)) (completion : Except ErrorRecord Unit) :
    Except ErrorRecord SpawnHandle :=
  let runArguments :=
    command :: (match args with
      | some a => a
      | none => [])
  Except.ok
    { command := selectReactNativeCLI env, args := runArguments, outcome := completion }

/- ## Concrete sample inputs used by counterexamples and witnesses -/

/-- A concrete workspace folder. -/
def sampleFolder : WorkspaceFolder :=
  { fsPath := "/app", name := "app", index := 0 }

/-- A second, distinct workspace folder. -/
def sampleFolderB : WorkspaceFolder :=
  { fsPath := "/lib", name := "lib", index := 1 }

/-- Detection succeeded with a supported version and setup succeeds. -/
def envSupportedOk : FolderAddEnv :=
  { detected := VersionDetection.ok "0.22.0", setupOk := true, launcherResources := [] }

/-- Detection succeeded with a supported version but setup fails. -/
def envSupportedSetupFails : FolderAddEnv :=
  { detected := VersionDetection.ok "0.22.0", setupOk := false, launcherResources := [] }

/-- Version detection failed. -/
def envDetectFails : FolderAddEnv :=
  { detected := VersionDetection.err "ERROR_MISSING_DEPENDENCY", setupOk := true,
    launcherResources := [] }

/-- A launcher whose owned resources all dispose cleanly. -/
def healthyLauncher : AppLauncher :=
  { resources := [{ hasDispose := true, disposeThrows := false },
                  { hasDispose := false, disposeThrows := false }],
    folder := sampleFolder }

/-- A launcher owning a resource whose dispose throws. -/
def throwingLauncher : AppLauncher :=
  { resources := [{ hasDispose := true, disposeThrows := true }],
    folder := sampleFolder }

/-- A launcher attached to the second folder. -/
def launcherB : AppLauncher :=
  { resources := [], folder := sampleFolderB }

/- ## Helper lemmas -/

/-- One `onFolderAdded` call leaves the counter unchanged or increments it
by one. -/
theorem onFolderAdded_counter_cases (env : FolderAddEnv) (reg : Registry) (c : Nat)
    (folder : WorkspaceFolder) (root : String) :
    (onFolderAdded env reg c folder root).counter = c ∨
      (onFolderAdded env reg c folder root).counter = c + 1 := by
  unfold onFolderAdded
  split
  · exact Or.inl rfl
  · split
    · split
      · split
        · exact Or.inr rfl
        · exact Or.inl rfl
      · exact Or.inl rfl
    · exact Or.inl rfl

/-- The counter never decreases across one `onFolderAdded` call. -/
theorem counter_le_onFolderAdded (env : FolderAddEnv) (reg : Registry) (c : Nat)
    (folder : WorkspaceFolder) (root : String) :
    c ≤ (onFolderAdded env reg c folder root).counter := by
  rcases onFolderAdded_counter_cases env reg c folder root with h | h <;> omega

/-- The counter never decreases across one event step. -/
theorem counter_le_stepEvent (s : ExtensionState) (e : FolderEvent) :
    s.counter ≤ (stepEvent s e).counter := by
  cases e with
  | folderAdded env folder root =>
    exact counter_le_onFolderAdded env s.registry s.counter folder root
  | folderRemoved folder => exact Nat.le_refl s.counter
  | createAdditional folderPath pathExists =>
    cases pathExists <;> simp [stepEvent, createAdditionalWorkspaceFolder]

/-- The issued-index list either stays or gains the fresh index
`s.counter + 1` (in which case the counter becomes exactly that value). -/
theorem issued_stepEvent (s : ExtensionState) (e : FolderEvent) :
    (stepEvent s e).issued = s.issued ∨
      ((stepEvent s e).issued = s.issued ++ [s.counter + 1] ∧
        (stepEvent s e).counter = s.counter + 1) := by
  cases e with
  | folderAdded env folder root => exact Or.inl rfl
  | folderRemoved folder => exact Or.inl rfl
  | createAdditional folderPath pathExists =>
    cases pathExists with
    | false => exact Or.inl (by simp [stepEvent, createAdditionalWorkspaceFolder])
    | true => exact Or.inr (by simp [stepEvent, createAdditionalWorkspaceFolder])

/-- `CounterInv` is preserved by every event step. -/
theorem counterInv_stepEvent (s : ExtensionState) (e : FolderEvent)
    (h : CounterInv s) : CounterInv (stepEvent s e) := by
  obtain ⟨h1, h2, h3⟩ := h
  have hc := counter_le_stepEvent s e
  rcases issued_stepEvent s e with hiss | ⟨hiss, hcnt⟩
  · refine ⟨Nat.le_trans h1 hc, ?_, ?_⟩
    · rw [hiss]; exact h2
    · intro i hi
      rw [hiss] at hi
      obtain ⟨hi1, hi2⟩ := h3 i hi
      exact ⟨hi1, Nat.le_trans hi2 hc⟩
  · refine ⟨Nat.le_trans h1 hc, ?_, ?_⟩
    · rw [hiss]
      rw [List.pairwise_append]
      refine ⟨h2, List.pairwise_singleton _ _, ?_⟩
      intro a ha b hb
      rw [List.mem_singleton] at hb
      subst hb
      exact Nat.lt_succ_of_le (h3 a ha).2
    · intro i hi
      rw [hiss] at hi
      rw [List.mem_append] at hi
      rcases hi with hi | hi
      · obtain ⟨hi1, hi2⟩ := h3 i hi
        refine ⟨hi1, ?_⟩
        rw [hcnt]
        exact Nat.le_trans hi2 (Nat.le_succ s.counter)
      · rw [List.mem_singleton] at hi
        subst hi
        rw [hcnt]
        exact ⟨Nat.lt_succ_of_le h1, Nat.le_refl _⟩

/-- `CounterInv` is preserved by any event sequence (folded from any
state). -/
theorem counterInv_foldl (evs : List FolderEvent) :
    ∀ s : ExtensionState, CounterInv s → CounterInv (evs.foldl stepEvent s) := by
  induction evs with
  | nil => intro s h; exact h
  | cons e rest ih =>
    intro s h
    exact ih (stepEvent s e) (counterInv_stepEvent s e h)

/-- The counter never decreases across any event sequence. -/
theorem counter_le_foldl (evs : List FolderEvent) :
    ∀ s : ExtensionState, s.counter ≤ (evs.foldl stepEvent s).counter := by
  induction evs with
  | nil => intro s; exact Nat.le_refl s.counter
  | cons e rest ih =>
    intro s
    exact Nat.le_trans (counter_le_stepEvent s e) (ih (stepEvent s e))

/-- The initial process state satisfies the counter invariant. -/
theorem counterInv_initialState : CounterInv initialState := by
  refine ⟨Nat.le_refl 9000, List.Pairwise.nil, ?_⟩
  intro i hi
  simp [initialState] at hi

/- ## Claim theorems -/

/-- Claim C2: across any sequence of folder add/remove and
`createAdditionalWorkspaceFolder` events in one process lifetime, the
synthetic workspace-folder-index counter never decreases, the indices
issued by `createAdditionalWorkspaceFolder` are strictly increasing in
issue order (no value is ever reused), and every issued index exceeds the
initial seed 9000. -/
theorem countWorkspaceFolders_monotone_and_fresh (evs more : List FolderEvent) :
    9000 ≤ (runEvents evs).counter ∧
    (runEvents evs).counter ≤ (runEvents (evs ++ more)).counter ∧
    (runEvents evs).issued.Pairwise (· < ·) ∧
    (runEvents evs).issued.all (fun i => decide (9000 < i)) = true := by
  obtain ⟨h1, h2, h3⟩ := counterInv_foldl evs initialState counterInv_initialState
  refine ⟨h1, ?_, h2, ?_⟩
  · unfold runEvents
    rw [List.foldl_append]
    exact counter_le_foldl more (evs.foldl stepEvent initialState)
  · rw [List.all_eq_true]
    intro i hi
    rw [decide_eq_true_eq]
    exact (h3 i hi).1

/-- Claim C3 is false as stated: here version detection succeeds with the
supported version "0.22.0", yet because the launcher setup fails the
project root is not added to the registry, so registration is not
equivalent to "detection succeeded and the gate passed". -/
theorem onFolderAdded_gate_counterexample :
    isVersionError envSupportedSetupFails.detected = false ∧
    isSupportedVersion "0.22.0" = true ∧
    hasRoot (onFolderAdded envSupportedSetupFails [] 9000 sampleFolder "/app").registry
      "/app" = false ∧
    (onFolderAdded envSupportedSetupFails [] 9000 sampleFolder "/app").addFolderReached
      = false := by
  decide

/-- Claim C3 (amended): for a project root not yet in the registry, a
launcher is registered for it by `onFolderAdded` if and only if version
detection succeeds, the detected version passes the supported-version
gate, and the launcher setup succeeds; when detection fails or the version
is unsupported the folder is skipped, the failure is reported to
log/telemetry, and the registry is unchanged. -/
theorem onFolderAdded_registration_gate (env : FolderAddEnv) (reg : Registry)
    (c : Nat) (folder : WorkspaceFolder) (root : String)
    (hfresh : hasRoot reg root = false) :
    (hasRoot (onFolderAdded env reg c folder root).registry root = true ↔
      (isVersionError env.detected = false ∧ detectedSupported env.detected = true ∧
        env.setupOk = true)) ∧
    (detectedSupported env.detected = false →
      (onFolderAdded env reg c folder root).registry = reg ∧
      (onFolderAdded env reg c folder root).addFolderReached = false ∧
      (onFolderAdded env reg c folder root).failureReported = true) := by
  obtain ⟨det, setup, res⟩ := env
  cases det with
  | err r =>
    simp [onFolderAdded, isVersionError, detectedSupported, hfresh]
  | ok v =>
    by_cases hv : isSupportedVersion v
    · cases setup with
      | false =>
        simp [onFolderAdded, isVersionError, detectedSupported, hv, hfresh]
      | true =>
        simp only [onFolderAdded, isVersionError, detectedSupported, hv, if_true,
          addFolder, hfresh, Bool.false_eq_true, if_false]
        constructor
        · simp [hasRoot, List.any_append]
        · intro hcontra
          exact absurd hcontra (by simp [hv])
    · have hv' : isSupportedVersion v = false := by
        cases h : isSupportedVersion v
        · rfl
        · exact absurd h hv
      cases setup with
      | false =>
        simp [onFolderAdded, isVersionError, detectedSupported, hv', hfresh]
      | true =>
        simp [onFolderAdded, isVersionError, detectedSupported, hv', hfresh]

/-- Witness for the amended Claim C3 at concrete inputs: with a supported
version and a successful setup the root lands in the registry; with a
failed detection the registry is unchanged and the failure is reported. -/
theorem onFolderAdded_registration_gate_witness :
    hasRoot (onFolderAdded envSupportedOk [] 9000 sampleFolder "/app").registry "/app"
      = true ∧
    ((onFolderAdded envDetectFails [] 9000 sampleFolder "/app").registry = [] ∧
      (onFolderAdded envDetectFails [] 9000 sampleFolder "/app").addFolderReached = false ∧
      (onFolderAdded envDetectFails [] 9000 sampleFolder "/app").failureReported = true) :=
  ⟨((onFolderAdded_registration_gate envSupportedOk [] 9000 sampleFolder "/app"
      (by decide)).1).mpr (by decide),
   (onFolderAdded_registration_gate envDetectFails [] 9000 sampleFolder "/app"
      (by decide)).2 (by decide)⟩

/-- Claim C4: in `onFolderAdded` the launcher setup is awaited before
`ProjectsStorage.addFolder` — `addFolder` is only ever reached after a
successful setup, and when setup fails nothing is registered and the
registry is unchanged (no partial registration). -/
theorem onFolderAdded_requires_setup (env : FolderAddEnv) (reg : Registry)
    (c : Nat) (folder : WorkspaceFolder) (root : String) :
    ((onFolderAdded env reg c folder root).addFolderReached = true →
      env.setupOk = true) ∧
    (env.setupOk = false →
      (onFolderAdded env reg c folder root).registry = reg ∧
      (onFolderAdded env reg c folder root).addFolderReached = false) := by
  obtain ⟨det, setup, res⟩ := env
  cases det with
  | err r => simp [onFolderAdded]
  | ok v =>
    cases setup with
    | false =>
      by_cases hv : isSupportedVersion v <;> simp [onFolderAdded, hv]
    | true =>
      simp

/-- Witness for Claim C4 at concrete inputs: with a failing setup the
registry stays empty and `addFolder` is never reached; the reachability
direction is instantiated at a successful registration. -/
theorem onFolderAdded_requires_setup_witness :
    envSupportedOk.setupOk = true ∧
    ((onFolderAdded envSupportedSetupFails [] 9000 sampleFolder "/app").registry = [] ∧
      (onFolderAdded envSupportedSetupFails [] 9000 sampleFolder "/app").addFolderReached
        = false) :=
  ⟨(onFolderAdded_requires_setup envSupportedOk [] 9000 sampleFolder "/app").1
      (by decide),
   (onFolderAdded_requires_setup envSupportedSetupFails [] 9000 sampleFolder
      "/app").2 (by decide)⟩

/-- Claim C1 is false as stated: for a registered folder whose launcher
owns a resource with a throwing `dispose`, `onFolderRemoved` propagates
the teardown error before `ProjectsStorage.delFolder`, so the registry
entry is NOT evicted. -/
theorem onFolderRemoved_teardown_counterexample :
    (onFolderRemoved [("/app", throwingLauncher)] sampleFolder).delFolderReached
      = false ∧
    (onFolderRemoved [("/app", throwingLauncher)] sampleFolder).registry
      = [("/app", throwingLauncher)] ∧
    (onFolderRemoved [("/app", throwingLauncher)] sampleFolder).raised
      = some teardownFailureError := by
  decide

/-- Claim C1 (amended): `onFolderRemoved` reaches `ProjectsStorage.delFolder`
and evicts the folder's entry when the folder is present and every owned
resource disposes without throwing; a throwing dispose is not caught — it
propagates and prevents the eviction. -/
theorem onFolderRemoved_evicts_when_dispose_succeeds (reg : Registry)
    (folder : WorkspaceFolder) (l : AppLauncher)
    (h1 : getFolder reg folder = Except.ok l)
    (h2 : disposeOwned l.resources = Except.ok ()) :
    (onFolderRemoved reg folder).delFolderReached = true ∧
    (onFolderRemoved reg folder).registry = delFolder reg folder ∧
    (onFolderRemoved reg folder).registry.all
      (fun entry => !(decide (entry.snd.folder = folder))) = true := by
  unfold onFolderRemoved
  rw [h1]
  dsimp only
  rw [h2]
  refine ⟨rfl, rfl, ?_⟩
  rw [List.all_eq_true]
  intro x hx
  simp only [delFolder, List.mem_filter] at hx
  exact hx.2

/-- Witness for the amended Claim C1 at concrete inputs: a registered
folder whose launcher disposes cleanly is evicted. -/
theorem onFolderRemoved_evicts_when_dispose_succeeds_witness :
    (onFolderRemoved [("/app", healthyLauncher)] sampleFolder).delFolderReached = true ∧
    (onFolderRemoved [("/app", healthyLauncher)] sampleFolder).registry
      = delFolder [("/app", healthyLauncher)] sampleFolder ∧
    (onFolderRemoved [("/app", healthyLauncher)] sampleFolder).registry.all
      (fun entry => !(decide (entry.snd.folder = sampleFolder))) = true :=
  onFolderRemoved_evicts_when_dispose_succeeds [("/app", healthyLauncher)] sampleFolder
    healthyLauncher rfl rfl

/-- Claim C5 is false as stated: removing a folder that was never added is
not an error-free no-op — the registry lookup fails and the
project-not-found error propagates out of `onFolderRemoved` (the registry
is indeed left unchanged). -/
theorem onFolderRemoved_missing_counterexample :
    (onFolderRemoved [] sampleFolder).raised = some (projectNotFoundError []) ∧
    (onFolderRemoved [] sampleFolder).registry = [] ∧
    (onFolderRemoved [] sampleFolder).delFolderReached = false := by
  decide

/-- Claim C5 (amended): calling `onFolderRemoved` with a folder no
registry entry refers to leaves the registry unchanged and never reaches
`ProjectsStorage.delFolder`, but it raises the project-not-found error
rather than succeeding silently. -/
theorem onFolderRemoved_missing_leaves_registry (reg : Registry)
    (folder : WorkspaceFolder)
    (h : reg.all (fun entry => !(decide (entry.snd.folder = folder))) = true) :
    (onFolderRemoved reg folder).registry = reg ∧
    (onFolderRemoved reg folder).delFolderReached = false ∧
    (onFolderRemoved reg folder).raised = some (projectNotFoundError reg) := by
  have hfind : reg.find? (fun entry => decide (entry.snd.folder = folder)) = none := by
    rw [List.find?_eq_none]
    intro x hx
    have hall := (List.all_eq_true.mp h) x hx
    simp only [Bool.not_eq_true'] at hall
    simp [hall]
  unfold onFolderRemoved getFolder
  rw [hfind]
  exact ⟨rfl, rfl, rfl⟩

/-- Witness for the amended Claim C5 at concrete inputs: removing a folder
while the registry only holds an unrelated entry changes nothing and
raises the project-not-found error. -/
theorem onFolderRemoved_missing_leaves_registry_witness :
    (onFolderRemoved [("/lib", launcherB)] sampleFolder).registry
      = [("/lib", launcherB)] ∧
    (onFolderRemoved [("/lib", launcherB)] sampleFolder).delFolderReached = false ∧
    (onFolderRemoved [("/lib", launcherB)] sampleFolder).raised
      = some (projectNotFoundError [("/lib", launcherB)]) :=
  onFolderRemoved_missing_leaves_registry [("/lib", launcherB)] sampleFolder (by decide)

/-- Claim C6: the version probe returns the cleaned manifest version when
the installed package manifest declares one (including the test suite's
"^0.22.0" shape), and when the manifest lacks a version field it does not
fail but falls back to the project's declared version — in the reference
scenario yielding the non-empty, semver-valid string "0.22.2". -/
theorem getReactNativeVersion_probe_spec :
    getReactNativeVersion
      { manifestVersion := some "0.22.0", declaredVersion := "0.22.2" } = "0.22.0" ∧
    getReactNativeVersion
      { manifestVersion := some "^0.22.0", declaredVersion := "0.22.2" } = "0.22.0" ∧
    (∀ d : String,
      getReactNativeVersion { manifestVersion := none, declaredVersion := d }
        = processVersion d) ∧
    getReactNativeVersion
      { manifestVersion := none, declaredVersion := "0.22.2" } = "0.22.2" ∧
    (semverParse "0.22.2").isSome = true ∧
    "0.22.2" ≠ "" :=
  ⟨by decide, by decide, fun d => rfl, by decide, by decide, by decide⟩

/-- Claim C7: CLI resolution is a pure three-tier choice — whenever the
project-local installed binary exists its path is returned regardless of
the configured global command name, and with no local binary a configured
global name X is returned exactly. -/
theorem selectReactNativeCLI_three_tier (env : CLIResolutionEnv) :
    (env.localCLIExists = true → selectReactNativeCLI env = env.localCLIPath) ∧
    (env.localCLIExists = false → env.globalCommandName ≠ "" →
      selectReactNativeCLI env = env.globalCommandName) := by
  constructor
  · intro h
    simp [selectReactNativeCLI, h]
  · intro h hg
    simp [selectReactNativeCLI, h, hg]

/-- Witness for Claim C7 at concrete inputs: the local binary wins over a
configured global name, and with no local binary the configured name is
returned verbatim. -/
theorem selectReactNativeCLI_three_tier_witness :
    selectReactNativeCLI
      { localCLIExists := true,
        localCLIPath := "/app/node_modules/.bin/react-native",
        globalCommandName := "rn-global" } = "/app/node_modules/.bin/react-native" ∧
    selectReactNativeCLI
      { localCLIExists := false,
        localCLIPath := "/app/node_modules/.bin/react-native",
        globalCommandName := "rn-global" } = "rn-global" :=
  ⟨(selectReactNativeCLI_three_tier
      { localCLIExists := true,
        localCLIPath := "/app/node_modules/.bin/react-native",
        globalCommandName := "rn-global" }).1 rfl,
   (selectReactNativeCLI_three_tier
      { localCLIExists := false,
        localCLIPath := "/app/node_modules/.bin/react-native",
        globalCommandName := "rn-global" }).2 rfl (by decide)⟩

/-- Claim C8: both Process Executor failure modes — a process that cannot
be started and a process that exits non-zero — reject with an
`ErrorRecord` carrying the fixed command-failed code 101 at severity
`Error`, surfaced to the caller as the `Except.error` result. -/
theorem execute_failure_classification (cmd reason stdout stderr : String)
    (code : Int) (h : code ≠ 0) :
    (∃ e, execute cmd (ProcessOutcome.spawnError reason) = Except.error e ∧
      e.errorCode = 101 ∧ e.errorLevel = ErrorLevel.Error) ∧
    (∃ e, execute cmd (ProcessOutcome.exited code stdout stderr) = Except.error e ∧
      e.errorCode = 101 ∧ e.errorLevel = ErrorLevel.Error) := by
  constructor
  · exact ⟨_, rfl, rfl, rfl⟩
  · unfold execute
    dsimp only
    rw [if_neg h]
    exact ⟨_, rfl, rfl, rfl⟩

/-- Witness for Claim C8 at concrete inputs mirroring the test suite: a
bad binary (spawn failure) and a good command exiting 1 both reject with
code 101 at level Error. -/
theorem execute_failure_classification_witness :
    (∃ e, execute "bar" (ProcessOutcome.spawnError "spawn ENOENT")
      = Except.error e ∧ e.errorCode = 101 ∧ e.errorLevel = ErrorLevel.Error) ∧
    (∃ e, execute "bar" (ProcessOutcome.exited 1 "" "command not found")
      = Except.error e ∧ e.errorCode = 101 ∧ e.errorLevel = ErrorLevel.Error) :=
  execute_failure_classification "bar" "spawn ENOENT" "" "command not found" 1
    (by decide)

/-- Claim C9: `spawnReactCommand` on a CLI command with no extra argument
list never throws synchronously — construction always returns a handle
(argument vector exactly `[command]`, command resolved through
`selectReactNativeCLI`) whose completion signal is whatever the spawned
process later delivers, including a failure. -/
theorem spawnReactCommand_no_sync_throw (env : CLIResolutionEnv)
    (completion : Except ErrorRecord Unit) :
    ∃ h, spawnReactCommand env "run-ios" none completion = Except.ok h ∧
      h.args = ["run-ios"] ∧ h.command = selectReactNativeCLI env ∧
      h.outcome = completion :=
  ⟨_, rfl, rfl, rfl, rfl⟩

/-- Claim C10: every version string that does not parse as a valid
semantic version passes the supported-version gate — `isSupportedVersion`
only rejects strings that parse as valid semver below 0.19.0. -/
theorem isSupportedVersion_invalid_semver_passes (v : String)
    (h : semverParse v = none) : isSupportedVersion v = true := by
  unfold isSupportedVersion
  rw [h]
  rfl

/-- Witness for Claim C10 at the custom version string named in the source
comment: "0.2018.0107-v1" is not valid semver (leading zero in the patch
field) and passes the gate. -/
theorem isSupportedVersion_invalid_semver_passes_witness :
    semverParse "0.2018.0107-v1" = none ∧
    isSupportedVersion "0.2018.0107-v1" = true :=
  ⟨by decide, isSupportedVersion_invalid_semver_passes "0.2018.0107-v1" (by decide)⟩
